import Mathlib

/-!
Verification of the MindSync server bootstrap (Express application).

Shallow embedding of the three source files:
- `src/unnamed/part_000` — the configuration loader (`config`);
- `src/unnamed/part_001` — the rate-limiter options (`limiter`);
- `src/server/src/routes/index.ts` — the route mounter (`mindSyncRoute`), the
  CORS option object (`corOptions.origin`), the middleware chain, the startup
  IIFE and the shutdown handler (`handleServerShutdown`).

JavaScript `string | undefined` environment values are modelled as
`Option String`; JavaScript truthiness of such a value (falsy exactly on
`undefined` and on the empty string) is the function `truthy`.
-/

namespace MindSync

/-- JavaScript truthiness of a `string | undefined` value: `undefined` and the
empty string are falsy, every other string is truthy. -/
def truthy : Option String → Bool
  | none => false
  | some s => !(s == "")

/-- The process environment variables read by the configuration loader
(`process.env.PORT`, `process.env.NODE_ENV`, `process.env.NODE_ORIGIN`),
each a `string | undefined`. -/
structure Env where
  PORT : Option String
  NODE_ENV : Option String
  NODE_ORIGIN : Option String
deriving DecidableEq

/-- The configuration record produced by the loader in `src/unnamed/part_000`.
`PORT` is `process.env.PORT || 3000`, so it is either the environment string
(when truthy) or the number 3000. -/
structure Config where
  PORT : String ⊕ Nat
  NODE_ENV : Option String
  WHITELIST_ORIGINS : List String
deriving DecidableEq

/-- The configuration loader of `src/unnamed/part_000`:
`PORT: process.env.PORT || 3000`, `NODE_ENV: process.env.NODE_ENV`,
`WHITELIST_ORIGINS: process.env.NODE_ORIGIN ?
['http://localhost:5173', process.env.NODE_ORIGIN] : ['http://localhost:5173']`.
The `?:` and `||` tests are JavaScript truthiness (`truthy`). -/
def config (env : Env) : Config :=
  { PORT := if truthy env.PORT then Sum.inl (env.PORT.getD "") else Sum.inr 3000
    NODE_ENV := env.NODE_ENV
    WHITELIST_ORIGINS :=
      if truthy env.NODE_ORIGIN then
        ["http://localhost:5173", env.NODE_ORIGIN.getD ""]
      else
        ["http://localhost:5173"] }

/-- The boolean condition of the `if` inside `corOptions.origin`:
`config.NODE_ENV === 'development' || !origin ||
config.WHITELIST_ORIGINS.includes(origin)`.  The request origin is
`string | undefined`, so `!origin` is `!truthy origin`. -/
def corsAllows (cfg : Config) (origin : Option String) : Bool :=
  cfg.NODE_ENV == some "development" || !truthy origin ||
    cfg.WHITELIST_ORIGINS.contains (origin.getD "")

/-- The template literal built twice in the deny branch of
`corOptions.origin`. -/
def corsErrorMsg (origin : Option String) : String :=
  "CORS Error: " ++ origin.getD "" ++ " is not allowed by CORS"

/-- An observable effect of `corOptions.origin`: either the invocation of the
continuation `callback(err, allow)` (the decision communicated to the `cors`
middleware) or a `console.log` line. -/
inductive CorsEvent where
  | decision (err : Option String) (allow : Bool)
  | log (msg : String)
deriving DecidableEq

/-- The ordered list of observable effects of one call of `corOptions.origin`:
if the condition `corsAllows` holds, `callback(null, true)`; otherwise
`callback(new Error(msg), false)` followed by `console.log(msg)`. -/
def corsOriginEvents (cfg : Config) (origin : Option String) : List CorsEvent :=
  if corsAllows cfg origin then
    [CorsEvent.decision none true]
  else
    [CorsEvent.decision (some (corsErrorMsg origin)) false,
     CorsEvent.log (corsErrorMsg origin)]

/-- A fixed non-development environment used as a concrete instantiation. -/
def prodEnv : Env := { PORT := none, NODE_ENV := some "production", NODE_ORIGIN := none }

/-- The configuration the loader produces from `prodEnv`. -/
def prodCfg : Config := config prodEnv

/-- One middleware passed to `app.use` in `src/server/src/routes/index.ts`,
with the option values that appear in the source
(`extended: true`, `threshold: 1024`). -/
inductive Middleware where
  | cors
  | jsonParsing
  | urlencodedParsing (extended : Bool)
  | cookieParsing
  | compression (threshold : Nat)
  | helmet
  | rateLimiter
deriving DecidableEq

/-- One top-level step of the application assembly: an `app.use(...)` call,
the `mindSyncRoute(app)` call inside the startup IIFE, or `app.listen`. -/
inductive AppStep where
  | use (m : Middleware)
  | mountRoutes
  | listen
deriving DecidableEq

/-- The ordered sequence of assembly steps exactly as they execute in
`src/server/src/routes/index.ts`: the seven `app.use` calls in source order,
then `mindSyncRoute(app)` and `app.listen` inside the IIFE. -/
def appAssembly : List AppStep :=
  [AppStep.use Middleware.cors,
   AppStep.use Middleware.jsonParsing,
   AppStep.use (Middleware.urlencodedParsing true),
   AppStep.use Middleware.cookieParsing,
   AppStep.use (Middleware.compression 1024),
   AppStep.use Middleware.helmet,
   AppStep.use Middleware.rateLimiter,
   AppStep.mountRoutes,
   AppStep.listen]

/-- The middleware chain: the `app.use` steps of `appAssembly`, in order. -/
def middlewareChain : List Middleware :=
  appAssembly.filterMap fun s =>
    match s with
    | AppStep.use m => some m
    | AppStep.mountRoutes => none
    | AppStep.listen => none

/-- The fixed JSON error body configured under `message` in
`src/unnamed/part_001`. -/
structure ErrorPayload where
  error : String
deriving DecidableEq

/-- The options object passed to `rateLimit` in `src/unnamed/part_001`. -/
structure LimiterOptions where
  windowMs : Nat
  limit : Nat
  standardHeaders : String
  legacyHeaders : Bool
  message : ErrorPayload
deriving DecidableEq

/-- The `limiter` export of `src/unnamed/part_001`: a 60000 ms window, a limit
of 60 requests, draft-8 standard headers, legacy headers disabled, and the
fixed error payload. -/
def limiter : LimiterOptions :=
  { windowMs := 60000
    limit := 60
    standardHeaders := "draft-8"
    legacyHeaders := false
    message :=
      { error := "You have sent too many request in a given amount of time. Please try again later." } }

/-- The rate-limit counter entry for one client key:
`{count, windowStart}` (timestamps in milliseconds). -/
structure CounterEntry where
  count : Nat
  windowStart : Nat
deriving DecidableEq

/-- The admission decision of the rate limiter for one request: forward down
the pipeline, or reject with a terminal JSON error payload. -/
inductive LimiterDecision where
  | forward
  | reject (payload : ErrorPayload)
deriving DecidableEq

/-- Modelled from the spec: the `express-rate-limit` algorithm itself is
library code not present under `src/`; `src/unnamed/part_001` only configures
it.  Per spec section 4.3, on each incoming request the limiter looks up the
entry for the client key; if it is absent or its window has expired it creates
a fresh entry with count 1 and a new window start, otherwise it increments the
count; if the post-increment count exceeds the configured limit it rejects the
request with the fixed error payload, otherwise it forwards it. -/
def limiterStep (opts : LimiterOptions) (now : Nat) (st : Option CounterEntry) :
    Option CounterEntry × LimiterDecision :=
  let entry : CounterEntry :=
    match st with
    | none => { count := 1, windowStart := now }
    | some e =>
      if e.windowStart + opts.windowMs ≤ now then
        { count := 1, windowStart := now }
      else
        { count := e.count + 1, windowStart := e.windowStart }
  (some entry,
   if opts.limit < entry.count then LimiterDecision.reject opts.message
   else LimiterDecision.forward)

/-- Modelled from the spec: runs the limiter over the request times of a
single client key, threading the counter state, and returns the decision made
for each request in order. -/
def limiterRun (opts : LimiterOptions) (st : Option CounterEntry) :
    List Nat → List LimiterDecision
  | [] => []
  | t :: ts =>
    (limiterStep opts t st).2 :: limiterRun opts (limiterStep opts t st).1 ts

/-- An HTTP method. -/
inductive Method where
  | GET
  | POST
  | PUT
  | DELETE
  | PATCH
  | OPTIONS
  | HEAD
deriving DecidableEq

/-- The JSON body sent by the health responder:
`{status: true, message: 'MindSync is OK!'}`. -/
structure HealthBody where
  status : Bool
  message : String
deriving DecidableEq

/-- The outcome of dispatching a request through `mindSyncRoute`: the health
response (with its HTTP status code), delegation to the external `AuthRoute`
table, or falling through both mounts. -/
inductive RouteResult where
  | health (statusCode : Nat) (body : HealthBody)
  | delegatedToAuthRoute
  | notFound
deriving DecidableEq

/-- Decides whether the first character list starts the second one. -/
def charPre : List Char → List Char → Bool
  | [], _ => true
  | _ :: _, [] => false
  | c :: cs, d :: ds => c == d && charPre cs ds

/-- Express `app.use(mount, ...)` path matching: the request pathname matches
the mount point when it equals the mount or extends it at a `/` boundary. -/
def useMatch (mount path : String) : Bool :=
  path == mount || charPre (mount ++ "/").data path.data

/-- The route mounter of `src/server/src/routes/index.ts`:
`app.use('/health', (req, res) => res.send({status: true, message:
'MindSync is OK!'}))` then `app.use('/api/v1', AuthRoute)`.  The health
handler ignores the request entirely, and `res.send` of an object produces an
HTTP 200 JSON response. -/
def mindSyncRoute (_method : Method) (path : String) : RouteResult :=
  if useMatch "/health" path then
    RouteResult.health 200 { status := true, message := "MindSync is OK!" }
  else if useMatch "/api/v1" path then
    RouteResult.delegatedToAuthRoute
  else
    RouteResult.notFound

/-- A `console.log` line of the startup IIFE. -/
inductive StartupLog where
  | running (port : String ⊕ Nat)
  | failedToStart (e : String)
deriving DecidableEq

/-- The observable outcome of the startup IIFE: its log lines, the exit call
it made (if any), and whether the listener was bound. -/
structure StartupOutcome where
  logs : List StartupLog
  exitCode : Option Nat
  listening : Bool
deriving DecidableEq

/-- The startup IIFE of `src/server/src/routes/index.ts`: `try {
mindSyncRoute(app); app.listen(config.PORT, ...log running...) } catch (error)
{ console.log('Failed to start the server', error); if (config.NODE_ENV ===
'production') process.exit(1); }`.  `setup` is the combined outcome of the
route mounting and listen steps inside the `try`: `Except.ok ()` when they
succeed, `Except.error e` when one of them throws `e`. -/
def startServer (cfg : Config) (setup : Except String Unit) : StartupOutcome :=
  match setup with
  | Except.ok _ =>
    { logs := [StartupLog.running cfg.PORT], exitCode := none, listening := true }
  | Except.error e =>
    { logs := [StartupLog.failedToStart e]
      exitCode := if cfg.NODE_ENV == some "production" then some 1 else none
      listening := false }

/-- A `console.log` line of the shutdown handler. -/
inductive ShutdownLog where
  | serverShutdown
  | errorDuringShutdown (e : String)
deriving DecidableEq

/-- The observable outcome of one run of the shutdown handler: its log lines
and the exit call it made (if any). -/
structure ShutdownOutcome where
  logs : List ShutdownLog
  exitCode : Option Nat
deriving DecidableEq

/-- `handleServerShutdown` of `src/server/src/routes/index.ts`: `try { ...;
console.log('Server SHUTDOWN'); process.exit(0); } catch (error) {
console.log('Error during server shutdown', error); }`.  Modelled from the
spec: the cleanup step — per the spec "currently a no-op placeholder for a
resource disconnect", and per the function's own doc comment a database
disconnect attempted before shutting down — is not present under `src/`; it is
taken here as the parameter `cleanup`, executed first inside the `try`.  The
source as it stands instantiates it with the no-op `Except.ok ()`
(`actualCleanup`).  When the cleanup throws, control jumps to the `catch`
before `process.exit(0)` runs, so the catch logs the error and the handler
returns without any exit call. -/
def handleServerShutdown (cleanup : Except String Unit) : ShutdownOutcome :=
  match cleanup with
  | Except.ok _ => { logs := [ShutdownLog.serverShutdown], exitCode := some 0 }
  | Except.error e => { logs := [ShutdownLog.errorDuringShutdown e], exitCode := none }

/-- The cleanup step as it stands in the source: a no-op placeholder. -/
def actualCleanup : Except String Unit := Except.ok ()

/-- A termination signal the process listens for. -/
inductive Signal where
  | SIGTERM
  | SIGINT
deriving DecidableEq

/-- `process.on("SIGTERM", handleServerShutdown)` and `process.on("SIGINT",
handleServerShutdown)`: delivery of either signal runs the same handler. -/
def onSignal (_s : Signal) (cleanup : Except String Unit) : ShutdownOutcome :=
  handleServerShutdown cleanup

theorem truthy_eq_false_iff (o : Option String) :
    truthy o = false ↔ o = none ∨ o = some "" := by
  cases o with
  | none => simp [truthy]
  | some s => simp [truthy]

/-- C2 (counterexample): the claim states that the evaluator allows exactly
when the environment is development, the origin header is absent, or the
origin is in the allowed list.  For the empty-string origin in a production
configuration the evaluator allows the request although none of those three
conditions holds — the JavaScript test `!origin` is truthiness, not absence. -/
theorem C2_empty_origin_counterexample :
    corsAllows prodCfg (some "") = true ∧
    prodCfg.NODE_ENV ≠ some "development" ∧
    (some "" : Option String) ≠ (none : Option String) ∧
    "" ∉ prodCfg.WHITELIST_ORIGINS := by
  decide

/-- C2 (amended): the CORS evaluator allows the request if and only if the
environment is development, or the origin header is absent or the empty
string (JavaScript-falsy), or the origin is a member of the configured
allowed-origins list; in every other case it denies by producing an error
whose message names the rejected origin. -/
theorem C2_cors_amended (cfg : Config) (origin : Option String) :
    (corsAllows cfg origin = true ↔
      (cfg.NODE_ENV = some "development" ∨ origin = none ∨ origin = some "" ∨
        origin.getD "" ∈ cfg.WHITELIST_ORIGINS)) ∧
    (∀ o : String, origin = some o → corsAllows cfg origin = false →
      corsOriginEvents cfg origin =
        [CorsEvent.decision (some ("CORS Error: " ++ o ++ " is not allowed by CORS")) false,
         CorsEvent.log ("CORS Error: " ++ o ++ " is not allowed by CORS")]) := by
  constructor
  · simp [corsAllows, Bool.or_eq_true, beq_iff_eq, Bool.not_eq_true',
      truthy_eq_false_iff, List.contains, List.elem_iff, or_assoc]
  · intro o ho hdeny
    subst ho
    simp [corsOriginEvents, hdeny, corsErrorMsg]

/-- C2 (witness): the amended theorem applied to the production configuration
and the unlisted origin of the spec's test vector. -/
theorem C2_cors_amended_witness :
    corsOriginEvents prodCfg (some "http://evil.example") =
      [CorsEvent.decision
        (some ("CORS Error: " ++ "http://evil.example" ++ " is not allowed by CORS")) false,
       CorsEvent.log ("CORS Error: " ++ "http://evil.example" ++ " is not allowed by CORS")] :=
  (C2_cors_amended prodCfg (some "http://evil.example")).2 "http://evil.example" rfl (by decide)

/-- C6: on every CORS denial the diagnostic log is emitted strictly after the
denial decision is communicated to the caller: in the event list of the deny
branch the decision occurs at an index strictly smaller than the log's. -/
theorem C6_decision_before_log (cfg : Config) (origin : Option String)
    (h : corsAllows cfg origin = false) :
    ∃ i j, i < j ∧
      (corsOriginEvents cfg origin).get? i =
        some (CorsEvent.decision (some (corsErrorMsg origin)) false) ∧
      (corsOriginEvents cfg origin).get? j =
        some (CorsEvent.log (corsErrorMsg origin)) := by
  refine ⟨0, 1, Nat.zero_lt_one, ?_, ?_⟩ <;> simp [corsOriginEvents, h]

/-- C6 (witness): the denial-ordering theorem applied to the production
configuration and an unlisted origin. -/
theorem C6_decision_before_log_witness :
    ∃ i j, i < j ∧
      (corsOriginEvents prodCfg (some "http://attacker.example")).get? i =
        some (CorsEvent.decision (some (corsErrorMsg (some "http://attacker.example"))) false) ∧
      (corsOriginEvents prodCfg (some "http://attacker.example")).get? j =
        some (CorsEvent.log (corsErrorMsg (some "http://attacker.example"))) :=
  C6_decision_before_log prodCfg (some "http://attacker.example") (by decide)

/-- C7 (counterexample): the claim states that whenever the custom origin
variable is present the allowed-origins sequence has two elements.  With the
variable present but equal to the empty string, the loader produces the
one-element sequence, not the two-element one. -/
theorem C7_empty_origin_env_counterexample :
    ({ PORT := none, NODE_ENV := none, NODE_ORIGIN := some "" } : Env).NODE_ORIGIN ≠ none ∧
    (config { PORT := none, NODE_ENV := none, NODE_ORIGIN := some "" }).WHITELIST_ORIGINS =
      ["http://localhost:5173"] ∧
    (config { PORT := none, NODE_ENV := none, NODE_ORIGIN := some "" }).WHITELIST_ORIGINS ≠
      ["http://localhost:5173", ""] := by
  decide

/-- C7 (amended): when the custom origin variable is present with a nonempty
value, the allowed-origins sequence is the two-element sequence (fixed local
default, custom origin); when it is absent or present with the empty string,
the sequence is the one-element sequence (fixed local default); the loader is
total, so absence is never surfaced as an error. -/
theorem C7_whitelist_amended (env : Env) :
    (∀ s : String, env.NODE_ORIGIN = some s → s ≠ "" →
      (config env).WHITELIST_ORIGINS = ["http://localhost:5173", s]) ∧
    ((env.NODE_ORIGIN = none ∨ env.NODE_ORIGIN = some "") →
      (config env).WHITELIST_ORIGINS = ["http://localhost:5173"]) := by
  constructor
  · intro s hs hne
    simp [config, truthy, hs, hne]
  · intro h
    rcases h with h | h <;> simp [config, truthy, h]

/-- C7 (witness): the amended theorem applied to an environment carrying a
nonempty custom origin. -/
theorem C7_whitelist_amended_witness :
    (config { PORT := none, NODE_ENV := none, NODE_ORIGIN := some "https://app.example" }).WHITELIST_ORIGINS =
      ["http://localhost:5173", "https://app.example"] :=
  (C7_whitelist_amended
      { PORT := none, NODE_ENV := none, NODE_ORIGIN := some "https://app.example" }).1
    "https://app.example" rfl (by decide)

/-- C10: the custom origin variable is tested for truthiness, not presence:
with the variable set to the empty string the allowed-origins list equals
the fixed local default alone, and the whole configuration coincides with the
one produced when the variable is unset. -/
theorem C10_empty_origin_truthiness (p e : Option String) :
    (config { PORT := p, NODE_ENV := e, NODE_ORIGIN := some "" }).WHITELIST_ORIGINS =
      ["http://localhost:5173"] ∧
    config { PORT := p, NODE_ENV := e, NODE_ORIGIN := some "" } =
      config { PORT := p, NODE_ENV := e, NODE_ORIGIN := none } := by
  constructor <;> simp [config, truthy]

/-- C1 (counterexample): the claim states that even when the cleanup step
inside the shutdown handler throws, the exit code remains 0.  When the
cleanup throws, `process.exit(0)` — which sits inside the `try` after the
cleanup — is skipped, so the handler makes no exit call at all (and the
shutdown message is not logged either): the outcome refutes "exits with
status 0". -/
theorem C1_cleanup_throw_counterexample :
    (onSignal Signal.SIGINT (Except.error "db disconnect failed")).exitCode ≠ some 0 ∧
    ShutdownLog.serverShutdown ∉
      (onSignal Signal.SIGINT (Except.error "db disconnect failed")).logs ∧
    (onSignal Signal.SIGINT (Except.error "db disconnect failed")).logs =
      [ShutdownLog.errorDuringShutdown "db disconnect failed"] := by
  decide

/-- C1 (amended): for every delivery of SIGTERM or SIGINT, with the cleanup
step as it stands in the source (a no-op), the handler logs the shutdown
message and exits with status 0; when the cleanup step throws, the cleanup
error is logged and the handler makes no exit call at all — in particular it
never exits with a nonzero status, but it does not exit with status 0
either. -/
theorem C1_shutdown_amended (s : Signal) (cleanup : Except String Unit) :
    (cleanup = actualCleanup →
      onSignal s cleanup =
        { logs := [ShutdownLog.serverShutdown], exitCode := some 0 }) ∧
    (∀ e : String, cleanup = Except.error e →
      (onSignal s cleanup).logs = [ShutdownLog.errorDuringShutdown e] ∧
      (onSignal s cleanup).exitCode = none) := by
  constructor
  · intro h
    subst h
    rfl
  · intro e he
    subst he
    exact ⟨rfl, rfl⟩

/-- C1 (witness): the amended theorem applied to SIGTERM with the source's
no-op cleanup. -/
theorem C1_shutdown_amended_witness :
    onSignal Signal.SIGTERM actualCleanup =
      { logs := [ShutdownLog.serverShutdown], exitCode := some 0 } :=
  (C1_shutdown_amended Signal.SIGTERM actualCleanup).1 rfl

/-- C3: for a single client key under the configured limiter (60 requests per
60000 ms window), a run of 61 requests inside one window forwards the first
60 — in particular the 60th — and rejects the 61st with the fixed JSON error
payload instead of forwarding it. -/
theorem C3_rate_limit :
    limiter.windowMs = 60000 ∧ limiter.limit = 60 ∧
    limiterRun limiter none ((List.range 61).map (fun i => i * 900)) =
      List.replicate 60 LimiterDecision.forward ++
        [LimiterDecision.reject limiter.message] := by
  refine ⟨rfl, rfl, ?_⟩
  decide

/-- C4: on startup failure the error is caught and logged; the process exits
with status 1 exactly when the environment is production, and in every
non-production environment no exit call is made and no listener is bound. -/
theorem C4_startup_failure (cfg : Config) (e : String) :
    (startServer cfg (Except.error e)).logs = [StartupLog.failedToStart e] ∧
    ((startServer cfg (Except.error e)).exitCode = some 1 ↔
      cfg.NODE_ENV = some "production") ∧
    (cfg.NODE_ENV ≠ some "production" →
      (startServer cfg (Except.error e)).exitCode = none ∧
      (startServer cfg (Except.error e)).listening = false) := by
  refine ⟨rfl, ?_, ?_⟩
  · by_cases h : cfg.NODE_ENV = some "production" <;> simp [startServer, h]
  · intro h
    simp [startServer, h]

/-- C4 (witness): the startup-failure theorem applied to a development
configuration and a concrete bind error. -/
theorem C4_startup_failure_witness :
    (startServer (config { PORT := none, NODE_ENV := some "development", NODE_ORIGIN := none })
        (Except.error "listen EADDRINUSE")).exitCode = none ∧
    (startServer (config { PORT := none, NODE_ENV := some "development", NODE_ORIGIN := none })
        (Except.error "listen EADDRINUSE")).listening = false :=
  (C4_startup_failure (config { PORT := none, NODE_ENV := some "development", NODE_ORIGIN := none })
      "listen EADDRINUSE").2.2 (by decide)

/-- C5: the assembled middleware chain is exactly, in order: CORS, JSON body
parsing, URL-encoded body parsing (extended), cookie parsing, compression
with a 1024-byte threshold, security-header injection (helmet), rate
limiting; and the whole assembly runs those seven `app.use` steps first,
so rate limiting is the last stage before the routes are mounted. -/
theorem C5_middleware_order :
    middlewareChain =
      [Middleware.cors, Middleware.jsonParsing, Middleware.urlencodedParsing true,
       Middleware.cookieParsing, Middleware.compression 1024, Middleware.helmet,
       Middleware.rateLimiter] ∧
    middlewareChain.getLast? = some Middleware.rateLimiter ∧
    appAssembly =
      middlewareChain.map AppStep.use ++ [AppStep.mountRoutes, AppStep.listen] := by
  decide

/-- C8: for every configuration state, a GET request to /health is answered
with status 200 and the JSON body with status true and message
"MindSync is OK!". -/
theorem C8_health_ok (_cfg : Config) :
    mindSyncRoute Method.GET "/health" =
      RouteResult.health 200 { status := true, message := "MindSync is OK!" } := by
  decide

/-- C9: the health responder is mounted with `app.use`, so every HTTP method
and every pathname matching the /health mount point (the path itself and all
sub-paths) receives the same fixed 200 payload, not only GET /health. -/
theorem C9_health_any_method_subpath (m : Method) (p : String)
    (h : useMatch "/health" p = true) :
    mindSyncRoute m p =
      RouteResult.health 200 { status := true, message := "MindSync is OK!" } := by
  simp [mindSyncRoute, h]

/-- C9 (witness): the theorem applied to a POST on a sub-path of /health. -/
theorem C9_health_any_method_subpath_witness :
    mindSyncRoute Method.POST "/health/deep/path" =
      RouteResult.health 200 { status := true, message := "MindSync is OK!" } :=
  C9_health_any_method_subpath Method.POST "/health/deep/path" (by decide)

end MindSync
